import Mathlib

/-!
Shallow embedding of the `finloader` incremental ingestion engine.

Timestamps (`pd.Timestamp` values in UTC) are modelled as `Int` seconds
since the Unix epoch; `pd.Timedelta` values as `Int` seconds.  A pandas
`DataFrame` is modelled by its index name, index timezone, column list and
rows (a timestamp paired with the cell values of that row).  Fallible
Python code (functions that may `raise`) is modelled with `Except String`.
-/

deriving instance DecidableEq for Except

namespace Finloader

/-- A row of cell values (one `Int` per column). -/
abbrev Row := List Int

/-- Model of a pandas `DataFrame` as used by the downloader: an index of
UTC timestamps (with its name and timezone metadata), a column list and
the rows keyed by timestamp, in frame order. -/
structure DataFrame where
  indexName : String
  tz : Option String
  cols : List String
  rows : List (Int × Row)
deriving Repr, DecidableEq

/-- The timestamps of the frame's index, in frame order. -/
def keys (l : List (Int × Row)) : List Int := l.map Prod.fst

/-- From `schema.py`: `REQUIRED_INDEX_NAME = "time"`. -/
def REQUIRED_INDEX_NAME : String := "time"

/-- From `schema.py`: `REQUIRED_COLUMNS = ["open", "high", "low", "close", "volume"]`. -/
def REQUIRED_COLUMNS : List String := ["open", "high", "low", "close", "volume"]

/-- Embedding of `schema.validate_data` as it actually runs.  `schema.py`
imports pandas only under `typing.TYPE_CHECKING`, which is false at
runtime, so the name `pd` is never bound in that module; the function's
first statement `isinstance(df, pd.DataFrame)` therefore evaluates the
unbound name `pd` and raises `NameError: name 'pd' is not defined` on
every call — for `None` and for every frame alike, whatever its index
name, columns, timezone or ordering — before any of the written checks
(index name, required columns, timezone-awareness, monotonicity,
duplicates) can run.  The argument is an `Option DataFrame` because
callers pass the result of a fetch, which in the source can be `None`. -/
def validate_data (_df : Option DataFrame) : Except String Unit :=
  .error "name 'pd' is not defined"

/-! ## Timeframe (`core.py`) -/

/-- Embedding of `core.Timeframe`: a bar length and a unit string.  The
unit constants of the source are the strings `"sec"`, `"min"`, `"hour"`,
`"day"`, `"week"`, `"month"`. -/
structure Timeframe where
  length : Int
  unit : String
deriving Repr, DecidableEq

/-- Embedding of `Timeframe._validate_length_and_unit`'s whitelist test
(the condition whose failure raises `ValueError`). -/
def validateLengthAndUnit (length : Int) (unit : String) : Bool :=
  (unit = "min" && (length = 1 || length = 5 || length = 15 || length = 30))
  || (unit = "hour" && (length = 1 || length = 4))
  || (unit = "day" && length = 1)
  || (unit = "week" && length = 1)
  || (unit = "month" && length = 1)

/-- Embedding of `Timeframe.__init__`: store the pair, then validate,
raising `ValueError` on a pair outside the whitelist. -/
def Timeframe.make (length : Int) (unit : String) : Except String Timeframe :=
  if validateLengthAndUnit length unit then .ok ⟨length, unit⟩
  else .error "Timeframe not supported"

/-- Embedding of the `Timeframe.timedelta` property, in seconds.  A month
is 31 days in the source (`pd.Timedelta(days=31)`); other units scale the
length.  An unknown unit raises. -/
def Timeframe.timedelta (tf : Timeframe) : Except String Int :=
  if tf.unit = "month" then .ok (31 * 86400)
  else if tf.unit = "sec" then .ok (tf.length * 1)
  else if tf.unit = "min" then .ok (tf.length * 60)
  else if tf.unit = "hour" then .ok (tf.length * 3600)
  else if tf.unit = "day" then .ok (tf.length * 86400)
  else if tf.unit = "week" then .ok (tf.length * 604800)
  else .error "Cannot convert unit to Timedelta"

/-- Embedding of the `Timeframe.is_intraday` property. -/
def Timeframe.isIntraday (tf : Timeframe) : Bool :=
  tf.unit = "sec" || tf.unit = "min" || tf.unit = "hour"

/-! ## Staleness (`downloader.py`) -/

/-- Embedding of `pd.Timestamp.normalize` on a UTC timestamp: zero out the
time of day, i.e. floor to a multiple of 86400 seconds. -/
def normalizeDay (t : Int) : Int := 86400 * (Int.fdiv t 86400)

/-- Embedding of `Downloader._is_data_stale`.  `now` stands for
`pd.Timestamp.now(tz="UTC")`; it is normalized to midnight when the
timeframe is not intraday, and the time difference is compared with the
timeframe's duration using strict `>`. -/
def is_data_stale (now dataLatestUtc : Int) (tf : Timeframe) : Except String Bool :=
  match tf.timedelta with
  | .error e => .error e
  | .ok td =>
    let effNow := if tf.isIntraday then now else normalizeDay now
    .ok (decide (effNow - dataLatestUtc > td))

/-- `DEFAULT_TIME_START = pd.Timestamp("2000-01-01", tz="UTC")`, i.e.
946684800 seconds since the Unix epoch. -/
def DEFAULT_TIME_START : Int := 946684800

/-- Embedding of reading an archive CSV back
(`pd.read_csv(filepath, index_col="time")` followed by
`pd.to_datetime(df.index, utc=True)`): the stored frame with its index
timezone forced to UTC. -/
def readCsvFile (f : DataFrame) : DataFrame := { f with tz := some "UTC" }

/-- Embedding of `Downloader._get_data_latest_utc` (with
`Downloader._last_time_in_file` inlined).  The archive file state is an
`Option DataFrame` (`none` when the file does not exist).  On an existing
file the source evaluates `df.index[-1]`, which raises `IndexError` when
the frame has no rows. -/
def get_data_latest_utc (file : Option DataFrame) : Except String Int :=
  match file with
  | none => .ok DEFAULT_TIME_START
  | some f =>
    match (readCsvFile f).rows.getLast? with
    | none => .error "index -1 is out of bounds"
    | some p => .ok p.1

/-! ## Merge engine (`Downloader._save`) -/

/-- Key ordering on rows: compare by timestamp.  This is the order
`sort_index()` sorts by. -/
def keyLe (p q : Int × Row) : Prop := p.1 ≤ q.1

instance : DecidableRel keyLe := fun p q => inferInstanceAs (Decidable (p.1 ≤ q.1))

instance : IsTotal (Int × Row) keyLe := ⟨fun p q => Int.le_total p.1 q.1⟩

instance : IsTrans (Int × Row) keyLe := ⟨fun _ _ _ h h' => le_trans h h'⟩

/-- Embedding of `combined[~combined.index.duplicated(keep="last")]`:
keep a row exactly when no later row carries the same timestamp, so for
each timestamp the last occurrence survives, in original order. -/
def dedupKeepLast : List (Int × Row) → List (Int × Row)
  | [] => []
  | p :: rest => if p.1 ∈ keys rest then dedupKeepLast rest else p :: dedupKeepLast rest

/-- Embedding of `DataFrame.sort_index()` on the rows: sort by timestamp.
After deduplication the keys are distinct, so any comparison sort yields
this result; insertion sort is used for the proofs. -/
def sortByKey (l : List (Int × Row)) : List (Int × Row) := List.insertionSort keyLe l

/-- The row-level merge performed by `Downloader._save` when the archive
file exists: concatenate existing and incoming rows, drop duplicate
timestamps keeping the last occurrence, and sort by timestamp. -/
def mergeRows (existing incoming : List (Int × Row)) : List (Int × Row) :=
  sortByKey (dedupKeepLast (existing ++ incoming))

/-- Embedding of `Downloader._save`.  `data` is the fetched frame (possibly
`None`), `file` the archive file state (`none` when absent).  The result is
the archive file state after the call together with the bars-added count the
source logs (`none` when nothing is saved); a raised exception is an
`Except.error` and leaves the file untouched (see `runSave`).  The merged
frame keeps the existing frame's metadata, its index re-read as UTC. -/
def save (data : Option DataFrame) (file : Option DataFrame) :
    Except String (Option DataFrame × Option Int) :=
  match validate_data data with
  | .error e => .error e
  | .ok _ =>
    match data with
    | none => .error "Invalid data type, not a pd.DataFrame"
    | some d =>
      if d.rows.length = 0 then
        .ok (file, none)
      else
        match file with
        | some f =>
          let e := readCsvFile f
          let combined : DataFrame :=
            { indexName := e.indexName, tz := some "UTC", cols := e.cols
              rows := mergeRows e.rows d.rows }
          match validate_data (some combined) with
          | .error msg => .error msg
          | .ok _ =>
            .ok (some combined, some ((combined.rows.length : Int) - (e.rows.length : Int)))
        | none =>
          let combined : DataFrame := { d with rows := sortByKey d.rows }
          match validate_data (some combined) with
          | .error msg => .error msg
          | .ok _ => .ok (some combined, some (combined.rows.length : Int))

/-- Python exception semantics of a `_save` call: on a raise the file on
disk keeps its previous state (the write happens only after both
validations); the second component carries the raised message. -/
def runSave (data : Option DataFrame) (file : Option DataFrame) :
    Option DataFrame × Option String :=
  match save data file with
  | .error e => (file, some e)
  | .ok (f, _) => (f, none)

/-! ## Retry policy (`RetriesDownloader._get_data`) -/

/-- Outcome of one `provider.get` call: a returned value (possibly `None`),
or one of the two rate-limit exceptions. -/
inductive FetchOutcome where
  | got (d : Option DataFrame)
  | tempLimit
  | dailyLimit
deriving Repr, DecidableEq

/-- Embedding of the `while retries < max_retries` loop of
`RetriesDownloader._get_data`, with the loop counter carried as
`remaining = max_retries - retries`: the loop guard `retries < max_retries`
is `remaining > 0` and the early-exit test `retries + 1 >= max_retries` is
`remaining = 1`.  `prov i` is the outcome of the `i`-th provider call
(`provider.get` returning a value, or raising one of the two rate-limit
exceptions); `callIdx` counts calls already made.  The result is the
returned value, the total number of provider calls made, and the list of
`time.sleep` durations performed, in order. -/
def retriesGo (prov : Nat → FetchOutcome) (callIdx : Nat) (remaining : Nat)
    (sleepTime maxSleep : Int) : Option DataFrame × Nat × List Int :=
  match remaining with
  | 0 => (none, callIdx, [])
  | rem + 1 =>
    match prov callIdx with
    | .got d => (d, callIdx + 1, [])
    | .dailyLimit => (none, callIdx + 1, [])
    | .tempLimit =>
      match rem with
      | 0 => (none, callIdx + 1, [])
      | _ + 1 =>
        let r := retriesGo prov (callIdx + 1) rem (min (sleepTime * 2) maxSleep) maxSleep
        (r.1, r.2.1, sleepTime :: r.2.2)

/-- `RetriesDownloader._get_data` with its default keyword arguments
`max_retries=5, base_sleep=20, max_sleep=60`. -/
def get_data_retries (prov : Nat → FetchOutcome) : Option DataFrame × Nat × List Int :=
  retriesGo prov 0 5 20 60

/-! ## Orchestration (`Downloader.download`, with `RetriesDownloader`) -/

/-- Embedding of `Downloader.download` as run by a `RetriesDownloader`:
read the latest stored timestamp, short-circuit when not stale, otherwise
fetch through the retry loop and hand the result to `_save`. -/
def download (prov : Nat → FetchOutcome) (now : Int) (tf : Timeframe)
    (file : Option DataFrame) : Except String (Option DataFrame × Option Int) :=
  match get_data_latest_utc file with
  | .error e => .error e
  | .ok latest =>
    match is_data_stale now latest tf with
    | .error e => .error e
    | .ok stale =>
      if !stale then .ok (file, none)
      else save (get_data_retries prov).1 file

/-! ## Formalization helpers and concrete fixtures -/

/-- The last row of `l` whose timestamp is `t` (the bar that
`duplicated(keep="last")` retains for timestamp `t`). -/
def findLast : List (Int × Row) → Int → Option (Int × Row)
  | [], _ => none
  | p :: rest, t =>
    match findLast rest t with
    | some q => some q
    | none => if p.1 = t then some p else none

/-- The sleep duration before retry `k` (0-based): start at `s`, double
after each retry, cap at `ms`.  This mirrors
`sleep_time = min(sleep_time * 2, max_sleep)` iterated `k` times. -/
def capDouble (s ms : Int) : Nat → Int
  | 0 => s
  | k + 1 => min (capDouble s ms k * 2) ms

/-- An existing archive file holding only the CSV header: a frame with the
required schema and no rows. -/
def emptyArchiveFrame : DataFrame := ⟨"time", some "UTC", REQUIRED_COLUMNS, []⟩

/-- A valid one-bar frame. -/
def oneBarFrame : DataFrame := ⟨"time", some "UTC", REQUIRED_COLUMNS, [(0, [1, 2, 3, 4, 5])]⟩

/-- A valid one-bar frame one day later, playing the incoming dataset. -/
def incomingBarFrame : DataFrame :=
  ⟨"time", some "UTC", REQUIRED_COLUMNS, [(86400, [6, 7, 8, 9, 10])]⟩

/-- A frame whose timestamp index is timezone-naive. -/
def naiveFrame : DataFrame := ⟨"time", none, REQUIRED_COLUMNS, [(0, [1, 2, 3, 4, 5])]⟩

/-- A frame valid in every respect except that its index is named `date`. -/
def wrongNameFrame : DataFrame := ⟨"date", some "UTC", REQUIRED_COLUMNS, [(0, [1, 2, 3, 4, 5])]⟩

/-- A provider that raises `TemporaryRateLimit` on every call. -/
def provAllTemp : Nat → FetchOutcome := fun _ => .tempLimit

/-! ## Helper lemmas about the merge engine -/

theorem keys_append (a b : List (Int × Row)) : keys (a ++ b) = keys a ++ keys b :=
  List.map_append _ _ _

theorem keys_cons (p : Int × Row) (rest : List (Int × Row)) :
    keys (p :: rest) = p.1 :: keys rest := rfl

theorem mem_keys_dedupKeepLast (t : Int) (l : List (Int × Row)) :
    t ∈ keys (dedupKeepLast l) ↔ t ∈ keys l := by
  induction l with
  | nil => exact Iff.rfl
  | cons p rest ih =>
    rw [keys_cons, List.mem_cons]
    by_cases h : p.1 ∈ keys rest
    · rw [dedupKeepLast, if_pos h, ih]
      constructor
      · exact Or.inr
      · rintro (rfl | h')
        · exact h
        · exact h'
    · rw [dedupKeepLast, if_neg h, keys_cons, List.mem_cons, ih]

theorem nodup_keys_dedupKeepLast (l : List (Int × Row)) :
    (keys (dedupKeepLast l)).Nodup := by
  induction l with
  | nil => exact List.nodup_nil
  | cons p rest ih =>
    by_cases h : p.1 ∈ keys rest
    · rw [dedupKeepLast, if_pos h]
      exact ih
    · rw [dedupKeepLast, if_neg h, keys_cons, List.nodup_cons]
      exact ⟨fun hmem => h ((mem_keys_dedupKeepLast p.1 rest).mp hmem), ih⟩

theorem findLast_eq_none (l : List (Int × Row)) (t : Int) :
    findLast l t = none ↔ t ∉ keys l := by
  induction l with
  | nil => simp [findLast, keys]
  | cons p rest ih =>
    rw [keys_cons, List.mem_cons]
    cases hr : findLast rest t with
    | some q =>
      have ht : t ∈ keys rest := by
        by_contra hn
        rw [ih.mpr hn] at hr
        exact Option.noConfusion hr
      simp only [findLast, hr]
      constructor
      · intro hcontra
        exact Option.noConfusion hcontra
      · intro hnot
        exact absurd (Or.inr ht) hnot
    | none =>
      have ht : t ∉ keys rest := ih.mp hr
      simp only [findLast, hr]
      by_cases hp : p.1 = t
      · rw [if_pos hp]
        constructor
        · intro hcontra
          exact Option.noConfusion hcontra
        · intro hnot
          exact absurd (Or.inl hp.symm) hnot
      · rw [if_neg hp]
        constructor
        · intro _
          rintro (rfl | hmem)
          · exact hp rfl
          · exact ht hmem
        · intro _
          rfl

theorem findLast_key {l : List (Int × Row)} {t : Int} {p : Int × Row}
    (h : findLast l t = some p) : p ∈ l ∧ p.1 = t := by
  induction l with
  | nil => exact Option.noConfusion h
  | cons a rest ih =>
    cases hr : findLast rest t with
    | some b =>
      simp only [findLast, hr, Option.some.injEq] at h
      subst h
      obtain ⟨hmem, hkey⟩ := ih hr
      exact ⟨List.mem_cons_of_mem _ hmem, hkey⟩
    | none =>
      simp only [findLast, hr] at h
      by_cases ha : a.1 = t
      · rw [if_pos ha, Option.some.injEq] at h
        subst h
        exact ⟨List.mem_cons_self _ _, ha⟩
      · rw [if_neg ha] at h
        exact Option.noConfusion h

theorem findLast_mem_dedupKeepLast {l : List (Int × Row)} {t : Int} {p : Int × Row}
    (h : findLast l t = some p) : p ∈ dedupKeepLast l := by
  induction l with
  | nil => exact Option.noConfusion h
  | cons a rest ih =>
    cases hr : findLast rest t with
    | some b =>
      simp only [findLast, hr, Option.some.injEq] at h
      subst h
      by_cases ha : a.1 ∈ keys rest
      · rw [dedupKeepLast, if_pos ha]
        exact ih hr
      · rw [dedupKeepLast, if_neg ha]
        exact List.mem_cons_of_mem _ (ih hr)
    | none =>
      simp only [findLast, hr] at h
      by_cases hat : a.1 = t
      · rw [if_pos hat, Option.some.injEq] at h
        subst h
        have hnot : a.1 ∉ keys rest := by
          rw [← hat] at hr
          exact (findLast_eq_none rest a.1).mp hr
        rw [dedupKeepLast, if_neg hnot]
        exact List.mem_cons_self _ _
      · rw [if_neg hat] at h
        exact Option.noConfusion h

theorem findLast_append (a b : List (Int × Row)) (t : Int) :
    findLast (a ++ b) t =
      match findLast b t with
      | some q => some q
      | none => findLast a t := by
  induction a with
  | nil =>
    simp only [List.nil_append]
    cases findLast b t <;> rfl
  | cons p a' ih =>
    rw [List.cons_append, findLast, ih]
    cases findLast b t with
    | some q => rfl
    | none => rfl

theorem sortByKey_perm (l : List (Int × Row)) : (sortByKey l).Perm l :=
  List.perm_insertionSort keyLe l

theorem mem_sortByKey {x : Int × Row} {l : List (Int × Row)} :
    x ∈ sortByKey l ↔ x ∈ l :=
  (sortByKey_perm l).mem_iff

theorem keys_sortByKey_perm (l : List (Int × Row)) :
    (keys (sortByKey l)).Perm (keys l) :=
  (sortByKey_perm l).map Prod.fst

theorem sorted_keyLe_sortByKey (l : List (Int × Row)) :
    List.Pairwise keyLe (sortByKey l) :=
  List.sorted_insertionSort keyLe l

theorem pairwise_lt_keys_mergeRows (e d : List (Int × Row)) :
    List.Pairwise (· < ·) (keys (mergeRows e d)) := by
  have hs : List.Pairwise keyLe (sortByKey (dedupKeepLast (e ++ d))) :=
    sorted_keyLe_sortByKey _
  have hle : List.Pairwise (· ≤ ·) (keys (sortByKey (dedupKeepLast (e ++ d)))) :=
    List.pairwise_map.2 hs
  have hnd : (keys (sortByKey (dedupKeepLast (e ++ d)))).Nodup :=
    (keys_sortByKey_perm _).nodup_iff.2 (nodup_keys_dedupKeepLast _)
  exact (hle.and hnd).imp fun h => lt_of_le_of_ne h.1 h.2

theorem mem_keys_mergeRows (e d : List (Int × Row)) (t : Int) :
    t ∈ keys (mergeRows e d) ↔ t ∈ keys e ∨ t ∈ keys d := by
  rw [mergeRows, (keys_sortByKey_perm _).mem_iff, mem_keys_dedupKeepLast,
    keys_append, List.mem_append]

theorem findLast_mem_mergeRows (e : List (Int × Row)) {d : List (Int × Row)}
    {p : Int × Row} (h : findLast d p.1 = some p) : p ∈ mergeRows e d := by
  have h2 : findLast (e ++ d) p.1 = some p := by
    rw [findLast_append, h]
  exact mem_sortByKey.2 (findLast_mem_dedupKeepLast h2)

theorem dedupKeepLast_eq_self {l : List (Int × Row)} (h : (keys l).Nodup) :
    dedupKeepLast l = l := by
  induction l with
  | nil => rfl
  | cons p rest ih =>
    rw [keys_cons, List.nodup_cons] at h
    rw [dedupKeepLast, if_neg h.1, ih h.2]

theorem dedupKeepLast_append_subset {a b : List (Int × Row)}
    (h : ∀ t ∈ keys a, t ∈ keys b) :
    dedupKeepLast (a ++ b) = dedupKeepLast b := by
  induction a with
  | nil => rfl
  | cons p a' ih =>
    have hmem : p.1 ∈ keys (a' ++ b) := by
      rw [keys_append, List.mem_append]
      exact Or.inr (h p.1 (by rw [keys_cons]; exact List.mem_cons_self _ _))
    rw [List.cons_append, dedupKeepLast, if_pos hmem]
    exact ih fun t ht => h t (by rw [keys_cons]; exact List.mem_cons_of_mem _ ht)

theorem sortByKey_eq_self {l : List (Int × Row)} (h : List.Pairwise keyLe l) :
    sortByKey l = l :=
  List.Sorted.insertionSort_eq h

theorem mergeRows_self {X : List (Int × Row)} (hnd : (keys X).Nodup)
    (hs : List.Pairwise keyLe X) : mergeRows X X = X := by
  rw [mergeRows, dedupKeepLast_append_subset (fun t ht => ht),
    dedupKeepLast_eq_self hnd, sortByKey_eq_self hs]

/-! ## Helper lemmas about the retry loop -/

theorem capDouble_shift (s ms : Int) (k : Nat) :
    capDouble (min (s * 2) ms) ms k = capDouble s ms (k + 1) := by
  induction k with
  | zero => rfl
  | succ k ih => simp only [capDouble, ih]

theorem capDouble_20_60 (k : Nat) : capDouble 20 60 k = min (20 * 2 ^ k) 60 := by
  induction k with
  | zero =>
    rw [capDouble, pow_zero, mul_one]
    omega
  | succ k ih =>
    rw [capDouble, ih, pow_succ, ← mul_assoc]
    have h0 : (0 : Int) < 2 ^ k := by positivity
    have h1 : 20 * 2 ^ k ≤ 20 * 2 ^ k * 2 := by nlinarith [h0]
    omega

theorem retriesGo_zero (prov : Nat → FetchOutcome) (c : Nat) (s ms : Int) :
    retriesGo prov c 0 s ms = (none, c, []) := rfl

theorem retriesGo_got (prov : Nat → FetchOutcome) (c rem : Nat) (s ms : Int)
    (d : Option DataFrame) (hp : prov c = .got d) :
    retriesGo prov c (rem + 1) s ms = (d, c + 1, []) := by
  simp only [retriesGo, hp]

theorem retriesGo_daily_step (prov : Nat → FetchOutcome) (c rem : Nat) (s ms : Int)
    (hp : prov c = .dailyLimit) :
    retriesGo prov c (rem + 1) s ms = (none, c + 1, []) := by
  simp only [retriesGo, hp]

theorem retriesGo_temp_last (prov : Nat → FetchOutcome) (c : Nat) (s ms : Int)
    (hp : prov c = .tempLimit) :
    retriesGo prov c 1 s ms = (none, c + 1, []) := by
  simp only [retriesGo, hp]

theorem retriesGo_temp_step (prov : Nat → FetchOutcome) (c r' : Nat) (s ms : Int)
    (hp : prov c = .tempLimit) :
    retriesGo prov c (r' + 1 + 1) s ms =
      ((retriesGo prov (c + 1) (r' + 1) (min (s * 2) ms) ms).1,
       (retriesGo prov (c + 1) (r' + 1) (min (s * 2) ms) ms).2.1,
       s :: (retriesGo prov (c + 1) (r' + 1) (min (s * 2) ms) ms).2.2) := by
  simp only [retriesGo, hp]

theorem retriesGo_calls_le (prov : Nat → FetchOutcome) :
    ∀ (rem c : Nat) (s ms : Int), (retriesGo prov c rem s ms).2.1 ≤ c + rem := by
  intro rem
  induction rem with
  | zero =>
    intro c s ms
    rw [retriesGo_zero]
    exact Nat.le_add_right c 0
  | succ rem ih =>
    intro c s ms
    cases hp : prov c with
    | got d =>
      rw [retriesGo_got prov c rem s ms d hp]
      show c + 1 ≤ c + (rem + 1)
      omega
    | dailyLimit =>
      rw [retriesGo_daily_step prov c rem s ms hp]
      show c + 1 ≤ c + (rem + 1)
      omega
    | tempLimit =>
      cases rem with
      | zero =>
        rw [retriesGo_temp_last prov c s ms hp]
      | succ r' =>
        rw [retriesGo_temp_step prov c r' s ms hp]
        show (retriesGo prov (c + 1) (r' + 1) (min (s * 2) ms) ms).2.1 ≤ c + (r' + 1 + 1)
        have h2 := ih (c + 1) (min (s * 2) ms) ms
        omega

theorem retriesGo_sleeps_len_le (prov : Nat → FetchOutcome) :
    ∀ (rem c : Nat) (s ms : Int), (retriesGo prov c rem s ms).2.2.length ≤ rem - 1 := by
  intro rem
  induction rem with
  | zero =>
    intro c s ms
    rw [retriesGo_zero]
    exact Nat.zero_le _
  | succ rem ih =>
    intro c s ms
    cases hp : prov c with
    | got d =>
      rw [retriesGo_got prov c rem s ms d hp]
      exact Nat.zero_le _
    | dailyLimit =>
      rw [retriesGo_daily_step prov c rem s ms hp]
      exact Nat.zero_le _
    | tempLimit =>
      cases rem with
      | zero =>
        rw [retriesGo_temp_last prov c s ms hp]
        exact Nat.zero_le _
      | succ r' =>
        rw [retriesGo_temp_step prov c r' s ms hp]
        show (s :: (retriesGo prov (c + 1) (r' + 1) (min (s * 2) ms) ms).2.2).length ≤
          r' + 1 + 1 - 1
        rw [List.length_cons]
        have h2 := ih (c + 1) (min (s * 2) ms) ms
        omega

theorem retriesGo_sleeps_get? (prov : Nat → FetchOutcome) :
    ∀ (rem c : Nat) (s ms : Int) (i : Nat),
      i < (retriesGo prov c rem s ms).2.2.length →
      (retriesGo prov c rem s ms).2.2[i]? = some (capDouble s ms i) := by
  intro rem
  induction rem with
  | zero =>
    intro c s ms i h
    rw [retriesGo_zero] at h
    exact absurd h (by simp)
  | succ rem ih =>
    intro c s ms i h
    cases hp : prov c with
    | got d =>
      rw [retriesGo_got prov c rem s ms d hp] at h
      exact absurd h (by simp)
    | dailyLimit =>
      rw [retriesGo_daily_step prov c rem s ms hp] at h
      exact absurd h (by simp)
    | tempLimit =>
      cases rem with
      | zero =>
        rw [retriesGo_temp_last prov c s ms hp] at h
        exact absurd h (by simp)
      | succ r' =>
        rw [retriesGo_temp_step prov c r' s ms hp] at h ⊢
        have h' : i < (s :: (retriesGo prov (c + 1) (r' + 1) (min (s * 2) ms) ms).2.2).length := h
        rw [List.length_cons] at h'
        cases i with
        | zero =>
          show (s :: (retriesGo prov (c + 1) (r' + 1) (min (s * 2) ms) ms).2.2)[0]? =
            some (capDouble s ms 0)
          rw [List.getElem?_cons_zero]
          rfl
        | succ i =>
          show (s :: (retriesGo prov (c + 1) (r' + 1) (min (s * 2) ms) ms).2.2)[i + 1]? =
            some (capDouble s ms (i + 1))
          rw [List.getElem?_cons_succ]
          have h2 := ih (c + 1) (min (s * 2) ms) ms i (by omega)
          rw [h2, capDouble_shift]

theorem readCsvFile_rows (f : DataFrame) : (readCsvFile f).rows = f.rows := rfl

/-! ## Claim theorems -/

/-- Claim C1 evaluation at the failing input: the merge the claim
describes lives in `_save` after its first statement `validate_data(data)`,
but that statement raises `NameError: name 'pd' is not defined` on every
call (pandas is bound in `schema.py` only under `TYPE_CHECKING`), so the
concatenation, deduplication, sort, persist and added-count logging never
execute for any existing archive and incoming series.  At a concrete
existing archive (one bar at `t = 0`) and incoming frame (one bar at
`t = 86400`), `_save` raises and the archive file is untouched; the merge
result onto which the claim's properties are stated is never computed —
though the written merge lines would have produced the sorted two-bar
series. -/
theorem save_raises_namerror_before_merge :
    save (some incomingBarFrame) (some oneBarFrame) = .error "name 'pd' is not defined" ∧
    runSave (some incomingBarFrame) (some oneBarFrame) =
      (some oneBarFrame, some "name 'pd' is not defined") ∧
    mergeRows oneBarFrame.rows incomingBarFrame.rows =
      [(0, [1, 2, 3, 4, 5]), (86400, [6, 7, 8, 9, 10])] := by decide

/-- Claim C2 counterexample: with a `1day` timeframe, a latest timestamp of
0 and the current time exactly one day later, `effective_now - latest` is
greater-or-equal to the timeframe duration, yet `_is_data_stale` returns
`false` (the source compares with strict `>`), contradicting the claimed
`>=` semantics. -/
theorem is_data_stale_boundary_counterexample :
    Timeframe.timedelta ⟨1, "day"⟩ = .ok 86400 ∧
    Timeframe.isIntraday ⟨1, "day"⟩ = false ∧
    normalizeDay 86400 - 0 ≥ 86400 ∧
    is_data_stale 86400 0 ⟨1, "day"⟩ = .ok false := by decide

/-- Claim C2 (amended): for every latest stored timestamp and every valid
timeframe, the staleness check computes `effective_now` as the current UTC
time, truncated to the start of its day when the timeframe is not intraday,
and returns true if and only if `effective_now - latest_utc` is strictly
greater than the timeframe's duration. -/
theorem is_data_stale_strict_gt (now latest len : Int) (u : String)
    (h : validateLengthAndUnit len u = true) :
    (is_data_stale now latest ⟨len, u⟩ = .ok true ↔
      (if u = "sec" ∨ u = "min" ∨ u = "hour" then now else normalizeDay now) - latest >
        (if u = "month" then 31 * 86400
         else if u = "sec" then len
         else if u = "min" then len * 60
         else if u = "hour" then len * 3600
         else if u = "day" then len * 86400
         else len * 604800)) := by
  simp only [validateLengthAndUnit, Bool.or_eq_true, Bool.and_eq_true,
    decide_eq_true_eq] at h
  rcases h with ((((⟨hu, _⟩ | ⟨hu, _⟩) | ⟨hu, _⟩) | ⟨hu, _⟩) | ⟨hu, _⟩) <;> subst hu <;>
    simp [is_data_stale, Timeframe.timedelta, Timeframe.isIntraday]

/-- Witness for C2 (amended) at a concrete intraday input. -/
theorem is_data_stale_strict_gt_witness :
    is_data_stale 1000 0 ⟨5, "min"⟩ = .ok true :=
  (is_data_stale_strict_gt 1000 0 5 "min" (by decide)).mpr (by decide)

/-- Claim C3 evaluation at the failing input: when the provider raises
`TemporaryRateLimit` on every attempt, the retry loop makes all 5 calls and
returns `None`, and the download operation then raises
`NameError: name 'pd' is not defined` from `validate_data(None)` inside
`_save` (pandas is bound in `schema.py` only under `TYPE_CHECKING`, so the
`isinstance` line crashes before its `ValueError` could even be built) —
an exception does surface to the caller, contradicting the claimed soft
failure — while the archive file itself is left unchanged (the raise
happens before any write). -/
theorem retries_exhausted_raises_namerror :
    (get_data_retries provAllTemp).1 = none ∧
    (get_data_retries provAllTemp).2.1 = 5 ∧
    download provAllTemp 947548800 ⟨1, "day"⟩ none =
      .error "name 'pd' is not defined" ∧
    runSave (get_data_retries provAllTemp).1 none =
      (none, some "name 'pd' is not defined") := by decide

/-- Claim C4 counterexample: a frame that satisfies every condition of the
claim — exactly the required columns, a timezone-aware UTC index, strictly
increasing timestamps — is still not accepted by `validate_data`: the call
raises `NameError: name 'pd' is not defined` instead of succeeding, so the
claimed success direction of the iff fails at this concrete dataset. -/
theorem validate_conforming_frame_counterexample :
    oneBarFrame.cols = REQUIRED_COLUMNS ∧
    oneBarFrame.tz = some "UTC" ∧
    List.Pairwise (· < ·) (keys oneBarFrame.rows) ∧
    validate_data (some oneBarFrame) ≠ .ok () := by
  refine ⟨rfl, rfl, ?_, by decide⟩
  simp [oneBarFrame, keys]

/-- Claim C4 (amended): the schema validator accepts no dataset and raises
no schema-specific error: because `schema.py` binds pandas only under
`TYPE_CHECKING`, every call — whatever the dataset's columns, timezone or
ordering, and also for `None` — raises `NameError: name 'pd' is not
defined` at the `isinstance` check, before any of the written schema checks
can run; through `_save` the same error surfaces and the archive file is
left unchanged. -/
theorem validate_data_never_accepts (df : Option DataFrame) (file : Option DataFrame) :
    validate_data df = .error "name 'pd' is not defined" ∧
    validate_data df ≠ .ok () ∧
    runSave df file = (file, some "name 'pd' is not defined") := by
  refine ⟨rfl, by simp [validate_data], ?_⟩
  rw [runSave]
  cases df <;> rfl

/-- Claim C5 evaluation at the failing input: a fetched dataset with a
tz-naive index (spec Scenario E) does abort `_save` before any write, and
the previously persisted archive is untouched — but the exception is the
`NameError` from the validator's `isinstance` line, raised uniformly for
every dataset, not a `ValidationError` specific to the invariant breach. -/
theorem tz_naive_ingestion_namerror :
    naiveFrame.tz = none ∧
    runSave (some naiveFrame) (some oneBarFrame) =
      (some oneBarFrame, some "name 'pd' is not defined") := by decide

/-- Claim C6 counterexample: on an archive file that exists but holds no
bars, `_get_data_latest_utc` does not return the epoch sentinel — the
source evaluates `df.index[-1]`, which raises `IndexError`. -/
theorem latest_utc_empty_file_counterexample :
    get_data_latest_utc (some emptyArchiveFrame) = .error "index -1 is out of bounds" ∧
    get_data_latest_utc (some emptyArchiveFrame) ≠ .ok DEFAULT_TIME_START := by decide

/-- Claim C6 (amended): the latest-timestamp query returns the timestamp of
the last stored bar when the archive file exists and has bars, returns the
fixed epoch sentinel 2000-01-01T00:00:00Z only when the archive file is
absent, and raises an index error when the file exists but is empty. -/
theorem latest_utc_amended (file : Option DataFrame) :
    (file = none → get_data_latest_utc file = .ok DEFAULT_TIME_START) ∧
    (∀ (f : DataFrame) (p : Int × Row), file = some f → f.rows.getLast? = some p →
      get_data_latest_utc file = .ok p.1) ∧
    (∀ f : DataFrame, file = some f → f.rows = [] →
      get_data_latest_utc file = .error "index -1 is out of bounds") := by
  refine ⟨?_, ?_, ?_⟩
  · rintro rfl
    rfl
  · rintro f p rfl hlast
    simp only [get_data_latest_utc, readCsvFile_rows, hlast]
  · rintro f rfl hrows
    simp only [get_data_latest_utc, readCsvFile_rows, hrows, List.getLast?]

/-- Witness for C6 (amended): absent file yields the sentinel; a one-bar
file yields that bar's timestamp. -/
theorem latest_utc_amended_witness :
    get_data_latest_utc none = .ok DEFAULT_TIME_START ∧
    get_data_latest_utc (some oneBarFrame) = .ok 0 :=
  ⟨(latest_utc_amended none).1 rfl,
   (latest_utc_amended (some oneBarFrame)).2.1 oneBarFrame (0, [1, 2, 3, 4, 5]) rfl rfl⟩

/-- Claim C7: with the default arguments (max 5 attempts, base sleep 20s,
cap 60s), the retry loop makes at most 5 provider calls, sleeps at most 4
times, the `k`-th sleep (0-based `i = k-1`) lasts `min(20 * 2^i, 60)`
seconds, and a `DailyRateLimit` at any active point of the loop returns the
soft failure immediately: one final call, no further attempt, no sleep. -/
theorem retry_policy_bounds_backoff_daily (prov : Nat → FetchOutcome) :
    (get_data_retries prov).2.1 ≤ 5 ∧
    (get_data_retries prov).2.2.length ≤ 4 ∧
    (∀ (i : Nat) (h : i < (get_data_retries prov).2.2.length),
      (get_data_retries prov).2.2.get ⟨i, h⟩ = min (20 * 2 ^ i) 60) ∧
    (∀ (c rem : Nat) (s ms : Int), 0 < rem → prov c = .dailyLimit →
      retriesGo prov c rem s ms = (none, c + 1, [])) := by
  refine ⟨retriesGo_calls_le prov 5 0 20 60, retriesGo_sleeps_len_le prov 5 0 20 60, ?_, ?_⟩
  · intro i h
    have h2 : (get_data_retries prov).2.2[i]? = some (capDouble 20 60 i) :=
      retriesGo_sleeps_get? prov 5 0 20 60 i h
    rw [List.getElem?_eq_getElem h] at h2
    have h3 : (get_data_retries prov).2.2.get ⟨i, h⟩ = capDouble 20 60 i := by
      rw [List.get_eq_getElem]
      exact Option.some.inj h2
    rw [h3, capDouble_20_60]
  · intro c rem s ms hrem hd
    cases rem with
    | zero => omega
    | succ r => exact retriesGo_daily_step prov c r s ms hd

/-- Witness for C7: with a provider that always raises the temporary limit,
the third sleep is the capped 60s; with one that raises the daily limit at
once, the loop stops after a single call with no sleeps. -/
theorem retry_policy_bounds_backoff_daily_witness :
    (get_data_retries provAllTemp).2.2.get ⟨2, by decide⟩ = 60 ∧
    retriesGo (fun _ => FetchOutcome.dailyLimit) 0 5 20 60 = (none, 1, []) := by
  constructor
  · have h := (retry_policy_bounds_backoff_daily provAllTemp).2.2.1 2 (by decide)
    rw [h]
    decide
  · exact (retry_policy_bounds_backoff_daily (fun _ => FetchOutcome.dailyLimit)).2.2.2
      0 5 20 60 (by decide) rfl

set_option maxHeartbeats 1000000 in
/-- Claim C8: `Timeframe` construction succeeds exactly on the whitelist:
minute length in {1, 5, 15, 30}, hour length in {1, 4}, and day, week or
month with length 1; every other (length, unit) pair — in particular every
length with unit second — fails with a validation error. -/
theorem timeframe_whitelist_iff (length : Int) (unit : String) :
    (∃ tf, Timeframe.make length unit = .ok tf) ↔
      ((unit = "min" ∧ (length = 1 ∨ length = 5 ∨ length = 15 ∨ length = 30)) ∨
       (unit = "hour" ∧ (length = 1 ∨ length = 4)) ∨
       ((unit = "day" ∨ unit = "week" ∨ unit = "month") ∧ length = 1)) := by
  have hiff : (∃ tf, Timeframe.make length unit = .ok tf) ↔
      validateLengthAndUnit length unit = true := by
    constructor
    · rintro ⟨tf, htf⟩
      by_cases h : validateLengthAndUnit length unit
      · exact h
      · rw [Timeframe.make, if_neg h] at htf
        exact Except.noConfusion htf
    · intro h
      exact ⟨⟨length, unit⟩, by rw [Timeframe.make, if_pos h]⟩
  rw [hiff, validateLengthAndUnit]
  simp only [Bool.or_eq_true, Bool.and_eq_true, decide_eq_true_eq]
  tauto

/-- Claim C9 evaluation at the failing input: saving a valid one-bar
series over an archive holding exactly that series raises
`NameError: name 'pd' is not defined` from `_save`'s first statement, so
the claimed idempotent merge with added count 0 is never reached — even
though the written merge lines (concat, dedup keep-last, sort) are in fact
idempotent at this series. -/
theorem merge_idempotence_unreachable :
    save (some oneBarFrame) (some oneBarFrame) = .error "name 'pd' is not defined" ∧
    runSave (some oneBarFrame) (some oneBarFrame) =
      (some oneBarFrame, some "name 'pd' is not defined") ∧
    mergeRows oneBarFrame.rows oneBarFrame.rows = oneBarFrame.rows := by decide

/-- Claim C10 evaluation at the failing input: a frame whose index is named
`date` but which is otherwise valid is not rejected with the written
`ValueError("Schema mismatch")` — the validator raises the uniform
`NameError: name 'pd' is not defined` before its index-name check, and a
correctly `time`-named frame receives exactly the same error, so no
index-name acceptance precondition is observable at runtime. -/
theorem index_name_check_unreachable :
    wrongNameFrame.indexName = "date" ∧
    validate_data (some wrongNameFrame) = .error "name 'pd' is not defined" ∧
    validate_data (some wrongNameFrame) ≠ .error "Schema mismatch" ∧
    validate_data (some oneBarFrame) = validate_data (some wrongNameFrame) := by decide

end Finloader
